import Mathlib

/-!
Verification of the api_yamdb permission model, signup/token flow and
rating aggregation, shallowly embedded from `api/permissions.py` and
`api/views.py`.

Conventions of the embedding:
* A Django/DRF user is a `User` record; the acting subject of a request is a
  `Subject`: either `anon` (Django `AnonymousUser`) or `auth u`.
* `AnonymousUser` has no `role` attribute, so the attribute access
  `request.user.role` is embedded as `Subject.role : Subject → Except String String`,
  returning `.error "AttributeError"` on the anonymous subject.  Python `or`
  chains short-circuit left to right, which the `Except` monad reproduces.
* Django model equality (`obj.author == request.user`) compares primary keys;
  an `AnonymousUser` is never equal to a model instance.
* HTTP statuses are plain naturals; `get_object_or_404` raising `Http404`
  is an explicit constructor of the respective result type.
-/

namespace ApiYamdb

/-- `rest_framework.permissions.SAFE_METHODS`. -/
def SAFE_METHODS : List String := ["GET", "HEAD", "OPTIONS"]

/-- A row of the `CustomUser` table (`reviews.models.CustomUser`). -/
structure User where
  id : Nat
  username : String
  email : String
  role : String
  bio : String
  confirmation_code : Option String
deriving Repr, DecidableEq

/-- The acting subject of a request: `request.user` is either Django's
`AnonymousUser` or an authenticated `CustomUser`. -/
inductive Subject where
  | anon
  | auth (u : User)
deriving Repr, DecidableEq

/-- The attribute access `request.user.is_authenticated`. -/
def Subject.is_authenticated : Subject → Bool
  | .anon => false
  | .auth _ => true

/-- The attribute access `request.user.role`: `AnonymousUser` has no `role`
attribute, so the access raises `AttributeError`. -/
def Subject.role : Subject → Except String String
  | .anon => .error "AttributeError"
  | .auth u => .ok u.role

/-- The comparison `obj.author == request.user` (Django model equality:
same table and same primary key; never true against `AnonymousUser`). -/
def userEq (a : User) : Subject → Bool
  | .anon => false
  | .auth u => a.id == u.id

namespace IsOwnerIsModeratorIsAdminOrReadOnly

/-- `IsOwnerIsModeratorIsAdminOrReadOnly.has_permission` from
`api/permissions.py`: `request.method in SAFE_METHODS or
request.user.is_authenticated`. -/
def has_permission (method : String) (user : Subject) : Bool :=
  SAFE_METHODS.contains method || user.is_authenticated

/-- `IsOwnerIsModeratorIsAdminOrReadOnly.has_object_permission` from
`api/permissions.py`: `request.method in SAFE_METHODS or obj.author ==
request.user or request.user.role == 'admin' or request.user.role ==
'moderator'`, with Python's left-to-right short-circuit and the possible
`AttributeError` on `request.user.role`. -/
def has_object_permission (method : String) (user : Subject) (objAuthor : User) :
    Except String Bool :=
  if SAFE_METHODS.contains method then .ok true
  else if userEq objAuthor user then .ok true
  else do
    let r1 ← user.role
    if r1 == "admin" then pure true
    else do
      let r2 ← user.role
      pure (r2 == "moderator")

end IsOwnerIsModeratorIsAdminOrReadOnly

namespace IsOwner

/-- `IsOwner.has_permission` from `api/permissions.py`. -/
def has_permission (method : String) (user : Subject) : Bool :=
  SAFE_METHODS.contains method || user.is_authenticated

/-- `IsOwner.has_object_permission` from `api/permissions.py`:
`obj.user == request.user` — the method is not consulted at all. -/
def has_object_permission (_method : String) (user : Subject) (objUser : User) : Bool :=
  userEq objUser user

end IsOwner

namespace IsAdminUser

/-- `IsAdminUser.has_permission` from `api/permissions.py`:
`request.user.role == 'admin'` — the method is not consulted, and the
attribute access faults on an anonymous subject. -/
def has_permission (_method : String) (user : Subject) : Except String Bool := do
  let r ← user.role
  pure (r == "admin")

/-- `IsAdminUser.has_object_permission` from `api/permissions.py`:
also `request.user.role == 'admin'`. -/
def has_object_permission (_method : String) (user : Subject) (_obj : User) :
    Except String Bool := do
  let r ← user.role
  pure (r == "admin")

end IsAdminUser

/-- The `CustomUser` table (`CustomUser.objects`). -/
structure Store where
  users : List User
deriving Repr, DecidableEq

/-- `CustomUser.objects.filter(username=..., email=...)`: the rows whose
`username` AND `email` both equal the given (possibly absent) values. -/
def Store.filterPair (s : Store) (username email : Option String) : List User :=
  s.users.filter (fun u => some u.username == username && some u.email == email)

/-- `get_object_or_404(CustomUser, username=...)` as used by the token view:
the first row with that username, when one exists. -/
def Store.findByUsername (s : Store) (username : String) : Option User :=
  s.users.find? (fun u => u.username == username)

/-- Modelled from the spec: `api/serializers.py` (`CustomUserSerializer`,
also used as the admin `UserSerializer` uniqueness validation) is not under
`src/`; the spec says signup must "validate uniqueness of username and email
independently (fails with ValidationError if either is taken by a different
identity)".  Valid iff both fields are supplied and neither is already taken. -/
def customUserSerializerValid (s : Store) (username email : Option String) : Bool :=
  match username, email with
  | some un, some em =>
      s.users.all (fun u => u.username != un) && s.users.all (fun u => u.email != em)
  | _, _ => false

/-- Outcome of `UserSignUpView.create` (`api/views.py`): HTTP status plus the
response body — `none` for the idempotent-resend message body, `some
(username, email)` when the creation payload is echoed — plus 400 on
serializer `ValidationError`. -/
structure SignupResponse where
  status : Nat
  body : Option (String × String)
deriving Repr, DecidableEq

/-- `UserSignUpView.create` from `api/views.py`: if a user with exactly this
(username, email) pair exists, answer 200 at once (no write, no new code);
otherwise validate, create the user, generate and store a fresh confirmation
code, send the mail, and answer 200 with the payload.  `freshCode` stands for
`default_token_generator.make_token(user)` and `nextId` for the
database-assigned primary key. -/
def signup_create (s : Store) (username email : Option String)
    (freshCode : String) (nextId : Nat) : Store × SignupResponse :=
  if s.filterPair username email ≠ [] then
    (s, ⟨200, none⟩)
  else if customUserSerializerValid s username email then
    match username, email with
    | some un, some em =>
        let user : User :=
          ⟨nextId, un, em, "user", "", some freshCode⟩
        (⟨s.users ++ [user]⟩, ⟨200, some (un, em)⟩)
    | _, _ => (s, ⟨400, none⟩)
  else (s, ⟨400, none⟩)

/-- Modelled from the spec: `api/serializers.py` (`CustomTokenDateNotNull`)
is not under `src/`; per the spec the token request carries the two fields
`{username, confirmation_code}`, so the serializer is valid iff both are
supplied. -/
def customTokenDateNotNullValid (username code : Option String) : Bool :=
  username.isSome && code.isSome

/-- Modelled from the spec: `api/serializers.py` (`CustomTokenCodeValidate`)
is not under `src/`; the spec says to "verify the supplied code matches the
currently valid code for that user's state (fails with ValidationError on
mismatch)". -/
def customTokenCodeValidateValid (u : User) (code : Option String) : Bool :=
  code == u.confirmation_code

/-- Outcome of `CustomTokenObtainPairView.create` (`api/views.py`):
either 200 with a bearer token for the user, the single generic 400 error
body, or the `Http404` raised by `get_object_or_404`. -/
inductive TokenResult where
  | success (userId : Nat)
  | generic400
  | notFound404
deriving Repr, DecidableEq

/-- `CustomTokenObtainPairView.create` from `api/views.py`: field validation,
then `get_object_or_404` on the username (raising `Http404` when absent),
then code validation; any serializer failure falls through to the one
generic 400 response. -/
def token_create (s : Store) (username code : Option String) : TokenResult :=
  if customTokenDateNotNullValid username code then
    match username with
    | some un =>
        match s.findByUsername un with
        | none => .notFound404
        | some user =>
            if customTokenCodeValidateValid user code then .success user.id
            else .generic400
    | none => .generic400
  else .generic400

/-- A partial-update payload for the self-profile endpoint: the fields of
`request.data` that are present. -/
structure ProfilePatch where
  username : Option String
  email : Option String
  bio : Option String
  role : Option String
deriving Repr, DecidableEq

/-- Modelled from the spec: `api/serializers.py` (`UserProfileSerializer`)
is not under `src/`; the spec flags that the "source does not explicitly
strip `role` from self-update payload", so the partial update applies every
supplied field, the `role` field included. -/
def userProfileSerializerSave (u : User) (p : ProfilePatch) : User :=
  { u with
    username := p.username.getD u.username
    email := p.email.getD u.email
    bio := p.bio.getD u.bio
    role := p.role.getD u.role }

/-- `UserProfileView.patch` from `api/views.py`: partial-update the calling
user with the payload and answer 200. -/
def userProfileView_patch (u : User) (p : ProfilePatch) : User × Nat :=
  (userProfileSerializerSave u p, 200)

/-- Outcome of `UserViewSet.create` (`api/views.py`): HTTP status plus body —
`none` for the bare `Response(status=200)`, `some (username, email)` when
`request.data` is echoed back. -/
structure AdminCreateResponse where
  status : Nat
  body : Option (Option String × Option String)
deriving Repr, DecidableEq

/-- `UserViewSet.create` from `api/views.py`: if a user with exactly this
(username, email) pair exists, answer a body-less 200 without writing;
otherwise validate, save, and answer 201 echoing `request.data`. -/
def userViewSet_create (s : Store) (username email : Option String)
    (nextId : Nat) : Store × AdminCreateResponse :=
  if s.filterPair username email ≠ [] then
    (s, ⟨200, none⟩)
  else if customUserSerializerValid s username email then
    match username, email with
    | some un, some em =>
        let user : User := ⟨nextId, un, em, "user", "", none⟩
        (⟨s.users ++ [user]⟩, ⟨201, some (username, email)⟩)
    | _, _ => (s, ⟨400, none⟩)
  else (s, ⟨400, none⟩)

/-- A row of the `Review` table, as far as the rating aggregation needs it. -/
structure Review where
  id : Nat
  title_id : Nat
  author_id : Nat
  score : Int
deriving Repr, DecidableEq

/-- The scores of the reviews attached to a title
(`reviews_for_title__score`). -/
def reviewScores (reviews : List Review) (titleId : Nat) : List Int :=
  (reviews.filter (fun r => r.title_id == titleId)).map (fun r => r.score)

/-- `Title.objects.annotate(rating=Avg('reviews_for_title__score'))` from
`api/views.py`: SQL `AVG` is `NULL` over zero rows and the arithmetic mean
otherwise. -/
def title_rating (reviews : List Review) (titleId : Nat) : Option ℚ :=
  match reviewScores reviews titleId with
  | [] => none
  | scores => some ((scores.sum : ℚ) / (scores.length : ℚ))

/-! Concrete rows used to instantiate the theorems below. -/

/-- A plain authenticated user with role `"user"`. -/
def plainUser : User := ⟨1, "petya", "petya@example.org", "user", "", none⟩

/-- An authenticated user with role `"admin"`. -/
def adminUser : User := ⟨2, "nadya", "nadya@example.org", "admin", "", none⟩

/-- An authenticated user with role `"moderator"`. -/
def modUser : User := ⟨3, "mitya", "mitya@example.org", "moderator", "", none⟩

/-- The author of some review or comment. -/
def authorUser : User := ⟨4, "vasya", "vasya@example.org", "user", "", some "oldcode"⟩

/-!  ## Claims about the Permission Evaluator  -/

/-- C1, as stated, is false: on an unsafe-method request (`PATCH`) by the
anonymous subject, `IsOwnerIsModeratorIsAdminOrReadOnly.has_object_permission`
does not return deny — the author comparison fails and the check then
dereferences `request.user.role`, raising `AttributeError`. -/
theorem C1_claim_false :
    IsOwnerIsModeratorIsAdminOrReadOnly.has_object_permission "PATCH" Subject.anon authorUser
      = Except.error "AttributeError" ∧
    (Except.error "AttributeError" : Except String Bool) ≠ Except.ok false := by
  exact ⟨rfl, fun h => Except.noConfusion h⟩

/-- C1 (amended): for every unsafe-method request by an anonymous subject,
the object-level check of the owner-or-staff variant does not short-circuit
to false — it reaches the subject's `role` attribute and faults with
`AttributeError`; anonymous unsafe requests are instead denied by the
collection-level gate, whose check returns false. -/
theorem C1_anon_object_gate_faults (method : String) (hm : method ∉ SAFE_METHODS)
    (a : User) :
    IsOwnerIsModeratorIsAdminOrReadOnly.has_object_permission method Subject.anon a
      = Except.error "AttributeError" ∧
    IsOwnerIsModeratorIsAdminOrReadOnly.has_permission method Subject.anon = false := by
  constructor
  · simp [IsOwnerIsModeratorIsAdminOrReadOnly.has_object_permission, hm, userEq,
      Subject.role, Bind.bind, Except.bind, pure, Except.pure]
  · simpa [IsOwnerIsModeratorIsAdminOrReadOnly.has_permission,
      Subject.is_authenticated] using hm

/-- Witness for C1 (amended) at the concrete input `PATCH`, anonymous
subject, object authored by `authorUser`. -/
theorem C1_anon_object_gate_faults_witness :
    IsOwnerIsModeratorIsAdminOrReadOnly.has_object_permission "PATCH" Subject.anon authorUser
      = Except.error "AttributeError" ∧
    IsOwnerIsModeratorIsAdminOrReadOnly.has_permission "PATCH" Subject.anon = false :=
  C1_anon_object_gate_faults "PATCH" (by decide) authorUser

/-- C5, as stated, is false: a safe-method (`GET`) request by an
authenticated subject whose role is `"user"` is denied by the admin-only
variant's collection-level gate, which consults only the role and never the
method. -/
theorem C5_claim_false :
    IsAdminUser.has_permission "GET" (Subject.auth plainUser) = Except.ok false ∧
    "GET" ∈ SAFE_METHODS := by
  exact ⟨rfl, by decide⟩

/-- C5 (amended): safe-method requests are always allowed at both gates of
the owner-or-staff variant and at the collection gate of the owner-only
variant; but the owner-only variant's object gate decides by ownership alone
for every method, and the admin-only variant allows a request at either gate,
for any method, exactly when the subject is an authenticated user whose role
is `"admin"` (faulting on the anonymous subject). -/
theorem C5_safe_methods_allowed :
    (∀ (method : String) (s : Subject) (a : User), method ∈ SAFE_METHODS →
      IsOwnerIsModeratorIsAdminOrReadOnly.has_permission method s = true ∧
      IsOwnerIsModeratorIsAdminOrReadOnly.has_object_permission method s a
        = Except.ok true ∧
      IsOwner.has_permission method s = true) ∧
    (∀ (method : String) (s : Subject) (owner : User),
      IsOwner.has_object_permission method s owner = userEq owner s) ∧
    (∀ (method : String) (s : Subject),
      IsAdminUser.has_permission method s = Except.ok true ↔
        ∃ u, s = Subject.auth u ∧ u.role = "admin") ∧
    (∀ (method : String) (s : Subject) (a : User),
      IsAdminUser.has_object_permission method s a = Except.ok true ↔
        ∃ u, s = Subject.auth u ∧ u.role = "admin") := by
  refine ⟨?_, ?_, ?_, ?_⟩
  · intro method s a hm
    have hc : SAFE_METHODS.contains method = true := by simpa using hm
    refine ⟨?_, ?_, ?_⟩ <;>
      simp [IsOwnerIsModeratorIsAdminOrReadOnly.has_permission,
        IsOwnerIsModeratorIsAdminOrReadOnly.has_object_permission,
        IsOwner.has_permission, hc, hm]
  · intro method s owner
    rfl
  · intro method s
    cases s with
    | anon =>
        simp [IsAdminUser.has_permission, Subject.role, Bind.bind, Except.bind]
    | auth u =>
        simp [IsAdminUser.has_permission, Subject.role, Bind.bind, Except.bind,
          pure, Except.pure]
  · intro method s a
    cases s with
    | anon =>
        simp [IsAdminUser.has_object_permission, Subject.role, Bind.bind, Except.bind]
    | auth u =>
        simp [IsAdminUser.has_object_permission, Subject.role, Bind.bind, Except.bind,
          pure, Except.pure]

/-- Witness for C5 (amended): concrete safe `GET` requests by the anonymous
subject through the owner-or-staff gates, and the admin-only gate allowing
the concrete admin user. -/
theorem C5_safe_methods_allowed_witness :
    (IsOwnerIsModeratorIsAdminOrReadOnly.has_permission "GET" Subject.anon = true ∧
     IsOwnerIsModeratorIsAdminOrReadOnly.has_object_permission "GET" Subject.anon authorUser
       = Except.ok true ∧
     IsOwner.has_permission "GET" Subject.anon = true) ∧
    IsAdminUser.has_permission "GET" (Subject.auth adminUser) = Except.ok true :=
  ⟨C5_safe_methods_allowed.1 "GET" Subject.anon authorUser (by decide),
   (C5_safe_methods_allowed.2.2.1 "GET" (Subject.auth adminUser)).mpr
     ⟨adminUser, rfl, rfl⟩⟩

/-- C6: for every authenticated subject and unsafe-method request, the
object-level gate of the owner-or-staff variant allows exactly the object's
author, the `"moderator"` role and the `"admin"` role; an authenticated
non-author with role `"user"` is denied. -/
theorem C6_owner_staff_object_gate (method : String) (hm : method ∉ SAFE_METHODS)
    (u a : User) :
    (IsOwnerIsModeratorIsAdminOrReadOnly.has_object_permission method
        (Subject.auth u) a = Except.ok true ↔
      (a.id = u.id ∨ u.role = "admin" ∨ u.role = "moderator")) ∧
    (u.role = "user" → a.id ≠ u.id →
      IsOwnerIsModeratorIsAdminOrReadOnly.has_object_permission method
        (Subject.auth u) a = Except.ok false) := by
  constructor
  · by_cases h1 : a.id = u.id
    · simp [IsOwnerIsModeratorIsAdminOrReadOnly.has_object_permission, hm, userEq, h1]
    · by_cases h2 : u.role = "admin"
      · simp [IsOwnerIsModeratorIsAdminOrReadOnly.has_object_permission, hm, userEq,
          h1, h2, Subject.role, Bind.bind, Except.bind, pure, Except.pure]
      · by_cases h3 : u.role = "moderator" <;>
          simp [IsOwnerIsModeratorIsAdminOrReadOnly.has_object_permission, hm, userEq,
            h1, h2, h3, Subject.role, Bind.bind, Except.bind, pure, Except.pure]
  · intro hr hne
    simp [IsOwnerIsModeratorIsAdminOrReadOnly.has_object_permission, hm, userEq,
      hne, Subject.role, Bind.bind, Except.bind, hr, pure, Except.pure]

/-- Witness for C6 at concrete inputs: on `DELETE`, the moderator may act on
the author's review, and the plain `"user"`-role non-author is denied. -/
theorem C6_owner_staff_object_gate_witness :
    IsOwnerIsModeratorIsAdminOrReadOnly.has_object_permission "DELETE"
      (Subject.auth modUser) authorUser = Except.ok true ∧
    IsOwnerIsModeratorIsAdminOrReadOnly.has_object_permission "DELETE"
      (Subject.auth plainUser) authorUser = Except.ok false :=
  ⟨(C6_owner_staff_object_gate "DELETE" (by decide) modUser authorUser).1.mpr
      (Or.inr (Or.inr rfl)),
   (C6_owner_staff_object_gate "DELETE" (by decide) plainUser authorUser).2 rfl
      (by decide)⟩

/-!  ## Claims about the signup / token flow and the endpoints  -/

/-- No row matches the exact-pair filter when the username is taken by
nobody in the store. -/
theorem filterPair_eq_nil_left {s : Store} {un : String} (em : String)
    (hu : ∀ x ∈ s.users, x.username ≠ un) :
    s.filterPair (some un) (some em) = [] := by
  refine List.filter_eq_nil_iff.mpr (fun x hx => ?_)
  simp [hu x hx]

/-- The exact-pair filter finds a row once one user carries both the
username and the email. -/
theorem filterPair_ne_nil {s : Store} {un em : String} {x : User}
    (hx : x ∈ s.users) (hxu : x.username = un) (hxe : x.email = em) :
    s.filterPair (some un) (some em) ≠ [] := by
  intro h0
  have hmem : x ∈ s.filterPair (some un) (some em) :=
    List.mem_filter.mpr ⟨hx, by simp [hxu, hxe]⟩
  rw [h0] at hmem
  exact List.not_mem_nil x hmem

/-- The modelled uniqueness validation passes when neither the username nor
the email is taken. -/
theorem serializerValid_of_fresh {s : Store} {un em : String}
    (hu : ∀ x ∈ s.users, x.username ≠ un) (he : ∀ x ∈ s.users, x.email ≠ em) :
    customUserSerializerValid s (some un) (some em) = true := by
  simp only [customUserSerializerValid, Bool.and_eq_true, List.all_eq_true]
  exact ⟨fun x hx => by simp [hu x hx], fun x hx => by simp [he x hx]⟩

/-- C7: signing up a fresh (username, email) pair answers 200 and adds
exactly one user row; signing up the identical pair again answers 200 and
leaves the store untouched — no second row is created. -/
theorem C7_signup_idempotent (s : Store) (un em : String)
    (hu : ∀ x ∈ s.users, x.username ≠ un) (he : ∀ x ∈ s.users, x.email ≠ em)
    (c1 c2 : String) (n1 n2 : Nat) :
    (signup_create s (some un) (some em) c1 n1).2.status = 200 ∧
    (signup_create s (some un) (some em) c1 n1).1.users.length
      = s.users.length + 1 ∧
    (signup_create (signup_create s (some un) (some em) c1 n1).1
        (some un) (some em) c2 n2).2.status = 200 ∧
    (signup_create (signup_create s (some un) (some em) c1 n1).1
        (some un) (some em) c2 n2).1
      = (signup_create s (some un) (some em) c1 n1).1 := by
  have hfil : s.filterPair (some un) (some em) = [] := filterPair_eq_nil_left em hu
  have hval := serializerValid_of_fresh hu he
  have h1 : signup_create s (some un) (some em) c1 n1
      = (⟨s.users ++ [⟨n1, un, em, "user", "", some c1⟩]⟩, ⟨200, some (un, em)⟩) := by
    simp [signup_create, hfil, hval]
  have h2 : (⟨s.users ++ [⟨n1, un, em, "user", "", some c1⟩]⟩ : Store).filterPair
      (some un) (some em) ≠ [] :=
    filterPair_ne_nil (x := ⟨n1, un, em, "user", "", some c1⟩)
      (List.mem_append_right _ (List.mem_singleton.mpr rfl)) rfl rfl
  rw [h1]
  refine ⟨rfl, by simp, ?_, ?_⟩ <;> simp [signup_create, h2]

/-- Witness for C7: both signup calls on the initially empty store, with the
concrete identity ("petya", "petya@example.org"). -/
theorem C7_signup_idempotent_witness :
    (signup_create ⟨[]⟩ (some "petya") (some "petya@example.org") "code1" 1).2.status
      = 200 ∧
    (signup_create ⟨[]⟩ (some "petya") (some "petya@example.org") "code1" 1).1.users.length
      = ([] : List User).length + 1 ∧
    (signup_create (signup_create ⟨[]⟩ (some "petya") (some "petya@example.org") "code1" 1).1
        (some "petya") (some "petya@example.org") "code2" 2).2.status = 200 ∧
    (signup_create (signup_create ⟨[]⟩ (some "petya") (some "petya@example.org") "code1" 1).1
        (some "petya") (some "petya@example.org") "code2" 2).1
      = (signup_create ⟨[]⟩ (some "petya") (some "petya@example.org") "code1" 1).1 :=
  C7_signup_idempotent ⟨[]⟩ "petya" "petya@example.org"
    (by simp) (by simp) "code1" "code2" 1 2

/-- C8, as stated, is false: a repeat signup for the already-registered pair
("vasya", "vasya@example.org") answers 200 but leaves the store — and with it
the stored confirmation code "oldcode" — unchanged, instead of storing the
freshly generated "newcode". -/
theorem C8_claim_false :
    (signup_create ⟨[authorUser]⟩ (some "vasya") (some "vasya@example.org")
        "newcode" 9).2.status = 200 ∧
    (signup_create ⟨[authorUser]⟩ (some "vasya") (some "vasya@example.org")
        "newcode" 9).1 = ⟨[authorUser]⟩ ∧
    authorUser.confirmation_code = some "oldcode" ∧
    "oldcode" ≠ "newcode" := by
  exact ⟨rfl, rfl, rfl, by decide⟩

/-- C8 (amended): a fresh confirmation code is generated and stored only on
the user-creating signup path; a repeat signup for an existing (username,
email) pair answers 200 without touching the store, so the previously stored
code stays in place. -/
theorem C8_fresh_code_only_on_create (s : Store) (un em c : String) (n : Nat) :
    (s.filterPair (some un) (some em) ≠ [] →
      signup_create s (some un) (some em) c n = (s, ⟨200, none⟩)) ∧
    (s.filterPair (some un) (some em) = [] →
      customUserSerializerValid s (some un) (some em) = true →
      (signup_create s (some un) (some em) c n).1.users
        = s.users ++ [⟨n, un, em, "user", "", some c⟩]) := by
  constructor
  · intro h
    simp [signup_create, h]
  · intro h hv
    simp [signup_create, h, hv]

/-- Witness for C8 (amended): the repeat-signup branch on the store holding
`authorUser`, and the creating branch on the empty store. -/
theorem C8_fresh_code_only_on_create_witness :
    signup_create ⟨[authorUser]⟩ (some "vasya") (some "vasya@example.org") "newcode" 9
      = (⟨[authorUser]⟩, ⟨200, none⟩) ∧
    (signup_create ⟨[]⟩ (some "vasya") (some "vasya@example.org") "newcode" 9).1.users
      = [] ++ [⟨9, "vasya", "vasya@example.org", "user", "", some "newcode"⟩] :=
  ⟨(C8_fresh_code_only_on_create ⟨[authorUser]⟩ "vasya" "vasya@example.org"
      "newcode" 9).1 (by decide),
   (C8_fresh_code_only_on_create ⟨[]⟩ "vasya" "vasya@example.org" "newcode" 9).2
      rfl rfl⟩

/-- C2 is violated by the modelled code: a PATCH of the self-profile by the
plain `"user"`-role user, carrying `role = "admin"` in the payload, answers
200 with the caller's stored role changed to `"admin"`. -/
theorem C2_patch_applies_role :
    (userProfileView_patch plainUser ⟨none, none, none, some "admin"⟩).1.role
      = "admin" ∧
    plainUser.role = "user" ∧
    (userProfileView_patch plainUser ⟨none, none, none, some "admin"⟩).2 = 200 :=
  ⟨rfl, rfl, rfl⟩

/-- C3, as stated, is false: a token-exchange request whose username matches
no user fails with the 404 raised by `get_object_or_404`, not with the single
generic 400 body, so the failure response does reveal that the username does
not exist. -/
theorem C3_claim_false :
    token_create ⟨[]⟩ (some "bob") (some "anycode") = TokenResult.notFound404 ∧
    TokenResult.notFound404 ≠ TokenResult.generic400 := by
  exact ⟨rfl, by decide⟩

/-- C3 (amended): a failing token exchange carrying an existing username but
a wrong confirmation code answers the single generic 400; but a request whose
username matches no user answers 404 NotFound, so the two failure causes are
distinguishable. -/
theorem C3_failure_responses (s : Store) (un c : String) :
    ((∃ u, s.findByUsername un = some u ∧ some c ≠ u.confirmation_code) →
      token_create s (some un) (some c) = TokenResult.generic400) ∧
    (s.findByUsername un = none →
      token_create s (some un) (some c) = TokenResult.notFound404) := by
  constructor
  · rintro ⟨u, hu, hc⟩
    simp [token_create, customTokenDateNotNullValid, hu,
      customTokenCodeValidateValid, hc]
  · intro hn
    simp [token_create, customTokenDateNotNullValid, hn]

/-- Witness for C3 (amended): on the store holding `authorUser` (stored code
"oldcode"), the wrong code "wrong" earns the generic 400, and the unknown
username "bob" earns the 404. -/
theorem C3_failure_responses_witness :
    token_create ⟨[authorUser]⟩ (some "vasya") (some "wrong")
      = TokenResult.generic400 ∧
    token_create ⟨[authorUser]⟩ (some "bob") (some "oldcode")
      = TokenResult.notFound404 :=
  ⟨(C3_failure_responses ⟨[authorUser]⟩ "vasya" "wrong").1
      ⟨authorUser, rfl, by decide⟩,
   (C3_failure_responses ⟨[authorUser]⟩ "bob" "oldcode").2 rfl⟩

/-- C4: when the two token-request fields are supplied but no user carries
the requested username, `CustomTokenObtainPairView.create` fails with the 404
of `get_object_or_404`, whatever confirmation code was supplied — code
verification is never reached. -/
theorem C4_unknown_username_404 (s : Store) (un : String)
    (h : ∀ x ∈ s.users, x.username ≠ un) (c : String) :
    token_create s (some un) (some c) = TokenResult.notFound404 := by
  have hf : s.findByUsername un = none :=
    List.find?_eq_none.mpr (fun x hx => by simp [h x hx])
  simp [token_create, customTokenDateNotNullValid, hf]

/-- Witness for C4 at the concrete input: username "bob" unknown to the
store holding only `authorUser`. -/
theorem C4_unknown_username_404_witness :
    token_create ⟨[authorUser]⟩ (some "bob") (some "whatever")
      = TokenResult.notFound404 :=
  C4_unknown_username_404 ⟨[authorUser]⟩ "bob" (by simp [authorUser]) "whatever"

/-- Reviews scored 6 and 8 on title 1; no review on title 2. -/
def c9Reviews : List Review := [⟨1, 1, 10, 6⟩, ⟨2, 1, 11, 8⟩]

/-- C9: the annotated rating is the arithmetic mean of the title's review
scores and is NULL when the title has no review; concretely, scores [6, 8]
yield rating 7 and a reviewless title yields none. -/
theorem C9_rating_is_mean :
    (∀ (reviews : List Review) (tid : Nat),
      (reviewScores reviews tid = [] → title_rating reviews tid = none) ∧
      (reviewScores reviews tid ≠ [] →
        title_rating reviews tid
          = some (((reviewScores reviews tid).sum : ℚ)
              / ((reviewScores reviews tid).length : ℚ)))) ∧
    title_rating c9Reviews 1 = some 7 ∧
    title_rating c9Reviews 2 = none := by
  refine ⟨fun reviews tid => ⟨?_, ?_⟩, ?_, rfl⟩
  · intro h
    simp [title_rating, h]
  · intro h
    unfold title_rating
    cases hs : reviewScores reviews tid with
    | nil => exact absurd hs h
    | cons a l => rfl
  · have hs : reviewScores c9Reviews 1 = [6, 8] := rfl
    unfold title_rating
    rw [hs]
    norm_num

/-- Witness for C9: the general mean statement applied to the concrete
review lists for title 1 (reviews present) and title 2 (no review). -/
theorem C9_rating_is_mean_witness :
    title_rating c9Reviews 1
      = some (((reviewScores c9Reviews 1).sum : ℚ)
          / ((reviewScores c9Reviews 1).length : ℚ)) ∧
    title_rating c9Reviews 2 = none :=
  ⟨(C9_rating_is_mean.1 c9Reviews 1).2 (by decide),
   (C9_rating_is_mean.1 c9Reviews 2).1 (by decide)⟩

/-- C10: on the admin users endpoint, a create request whose (username,
email) pair matches an existing row answers a body-less 200 and writes
nothing; a create request for a fresh valid identity answers 201 echoing
`request.data` and appends exactly the one new row. -/
theorem C10_admin_create (s : Store) (un em : String) (n : Nat) :
    ((∃ x ∈ s.users, x.username = un ∧ x.email = em) →
      userViewSet_create s (some un) (some em) n = (s, ⟨200, none⟩)) ∧
    ((∀ x ∈ s.users, x.username ≠ un) → (∀ x ∈ s.users, x.email ≠ em) →
      userViewSet_create s (some un) (some em) n
        = (⟨s.users ++ [⟨n, un, em, "user", "", none⟩]⟩,
           ⟨201, some (some un, some em)⟩)) := by
  constructor
  · rintro ⟨x, hx, hxu, hxe⟩
    have hne := filterPair_ne_nil hx hxu hxe
    simp [userViewSet_create, hne]
  · intro hu he
    have hfil := filterPair_eq_nil_left (s := s) em hu
    have hval := serializerValid_of_fresh hu he
    simp [userViewSet_create, hfil, hval]

/-- Witness for C10: the duplicate ("vasya", "vasya@example.org") against the
store holding `authorUser`, and the fresh identity against the empty store. -/
theorem C10_admin_create_witness :
    userViewSet_create ⟨[authorUser]⟩ (some "vasya") (some "vasya@example.org") 9
      = (⟨[authorUser]⟩, ⟨200, none⟩) ∧
    userViewSet_create ⟨[]⟩ (some "vasya") (some "vasya@example.org") 9
      = (⟨[] ++ [⟨9, "vasya", "vasya@example.org", "user", "", none⟩]⟩,
         ⟨201, some (some "vasya", some "vasya@example.org")⟩) :=
  ⟨(C10_admin_create ⟨[authorUser]⟩ "vasya" "vasya@example.org" 9).1
      ⟨authorUser, by simp, rfl, rfl⟩,
   (C10_admin_create ⟨[]⟩ "vasya" "vasya@example.org" 9).2
      (by simp) (by simp)⟩

end ApiYamdb
